import Mathlib

/-!
Verification of the Opendemo-Extension DOM recording/replay system.

The definitions below are a shallow embedding of the replay engine
(src/content/player.ts), the selector generator of the recorder content
script, and the playback entry checks of the background service worker.
DOM elements are modelled as records carrying exactly the data the code
reads (identity, tag, text, bounding box); a CSS selector is modelled
abstractly by the set of element identities it matches, or as a
syntactically invalid selector on which a direct query throws, which is
all the embedded code observes of the browser query engine.
-/

namespace Zordon

/-- A live DOM element, carrying the fields the player and the
spec-level locator read: an identity, the lowercase tag name, the visible
text, and the current bounding client rect. -/
structure Elem where
  eid : Nat
  tag : String
  text : String
  left : ℚ
  top : ℚ
  width : ℚ
  height : ℚ
  deriving DecidableEq, Repr

/-- A CSS selector string, modelled by its observable behaviour: a valid
selector matches a fixed set of element identities, an invalid selector
makes querySelector throw. -/
inductive Selector where
  | valid (ids : List Nat)
  | invalid (raw : String)
  deriving DecidableEq, Repr

/-- Whether a selector string is syntactically valid CSS. -/
def Selector.isValid : Selector → Bool
  | .valid _ => true
  | .invalid _ => false

/-- Whether a selector matches a given live element. An invalid selector
matches nothing (a query on it throws before matching). -/
def Selector.accepts : Selector → Elem → Bool
  | .valid ids, e => ids.contains e.eid
  | .invalid _, _ => false

/-- The live document: its elements in document order. -/
structure Dom where
  elems : List Elem
  deriving DecidableEq, Repr

/-- document.querySelector: throws on an invalid selector, otherwise
returns the first matching element in document order, or null. -/
def querySelector (dom : Dom) : Selector → Except String (Option Elem)
  | .invalid raw => .error ("invalid selector " ++ raw)
  | .valid ids => .ok (dom.elems.find? ((Selector.valid ids).accepts))

/-- Inner loop of DOMPlayer.findElement: for each selector in one
selector array, query it inside try/catch; a thrown query is skipped,
a null result moves on, the first non-null result is returned. -/
def findElementList (dom : Dom) : List Selector → Option Elem
  | [] => none
  | s :: rest =>
    match querySelector dom s with
    | .error _ => findElementList dom rest
    | .ok none => findElementList dom rest
    | .ok (some e) => some e

/-- Outer loop of DOMPlayer.findElement over the selector arrays: the
first selector array yielding an element wins. -/
def findElementGroups (dom : Dom) : List (List Selector) → Option Elem
  | [] => none
  | g :: gs =>
    match findElementList dom g with
    | some e => some e
    | none => findElementGroups dom gs

/-- DOMPlayer.findElement (player.ts lines 206 to 220): null when the
selectors argument is absent or empty, otherwise try each selector
strategy in order and return the first hit, null when all miss. -/
def findElement (dom : Dom) (selectors : Option (List (List Selector))) : Option Elem :=
  match selectors with
  | none => none
  | some groups =>
    if groups.length = 0 then none
    else findElementGroups dom groups

/-- The step types of the Chrome-DevTools-compatible step record. -/
inductive StepType where
  | navigate | click | change | keyDown | keyUp | scroll | waitForElement | assertElement
  deriving DecidableEq, Repr

/-- ChromeDevToolsStep: the recorded step shape consumed by the player.
Optional fields model the optional members of the TypeScript type. -/
structure Step where
  type : StepType
  selectors : Option (List (List Selector)) := none
  offsetX : Option ℚ := none
  offsetY : Option ℚ := none
  button : Option String := none
  key : Option String := none
  value : Option String := none
  url : Option String := none
  deriving DecidableEq, Repr

/-- A captured raw event as stored by the recorder; the player never
reads it, but its timestamp field is where capture times live. -/
structure RecEvent where
  timestamp : ℚ
  deriving DecidableEq, Repr

/-- RecordingSession as the player consumes it: events and an optional
steps list. -/
structure Recording where
  id : String
  title : Option String := none
  events : Option (List RecEvent) := none
  steps : Option (List Step) := none
  deriving DecidableEq, Repr

/-! Selector generation (recorder content script, generateSelectors). -/

/-- One level of the ancestor walk of the CSS-path strategy: the data the
walk reads at each element between the target and document.body
(exclusive): lowercase tag, id, how many children of its parent share its
tag, its 1-based position among those, and whether a parent exists. -/
structure PathLevel where
  tag : String
  id : String
  sameTagSiblings : Nat
  nthIndex : Nat
  hasParent : Bool
  deriving DecidableEq, Repr

/-- A DOM element as the selector generator reads it: lowercase tag, id,
className (none when className is not a plain string, as on SVG nodes),
the three attributes the attribute strategy queries, and the ancestor
chain (the element first, up to but excluding document.body). -/
structure GElem where
  tag : String
  id : String
  className : Option String := none
  dataTestid : Option String := none
  nameAttr : Option String := none
  typeAttr : Option String := none
  chain : List PathLevel := []
  deriving DecidableEq, Repr

/-- JavaScript split on a whitespace run, applied to an already trimmed
string: the empty string yields one empty token, otherwise the non-empty
whitespace-separated tokens. -/
def jsSplitWs (s : String) : List String :=
  if s = "" then [""] else (s.split Char.isWhitespace).filter (fun t => t ≠ "")

/-- Strategy 1: an id selector when the element has a truthy id. -/
def idStrategy (e : GElem) : Option (List String) :=
  if e.id ≠ "" then some ["#" ++ e.id] else none

/-- Strategy 2: tag.class1.class2 when className is a truthy string. -/
def classStrategy (e : GElem) : Option (List String) :=
  match e.className with
  | none => none
  | some c =>
    if c ≠ "" then
      let classes := jsSplitWs c.trim
      if classes.length > 0 then
        some [e.tag ++ "." ++ String.intercalate "." classes]
      else none
    else none

/-- The selector emitted for one level of the ancestor walk: the tag,
with an nth-child suffix when the parent has more than one child of the
same tag. -/
def levelSelector (l : PathLevel) : String :=
  l.tag ++
    (if l.hasParent ∧ l.sameTagSiblings > 1 then
      ":nth-child(" ++ toString l.nthIndex ++ ")"
    else "")

/-- The ancestor walk of strategy 3: visit the element then its parents,
prepending each level selector; a level with a truthy id becomes the
anchor and stops the walk. -/
def cssPath : List PathLevel → List String
  | [] => []
  | l :: rest =>
    if l.id ≠ "" then ["#" ++ l.id]
    else cssPath rest ++ [levelSelector l]

/-- Strategy 3: the CSS selector path, null when the walk produced
nothing (the element is document.body itself). -/
def pathStrategy (e : GElem) : Option (List String) :=
  let p := cssPath e.chain
  if p.length > 0 then some p else none

/-- getAttribute truthiness: an absent or empty attribute is falsy. -/
def truthyAttr : Option String → Option String
  | some v => if v ≠ "" then some v else none
  | none => none

/-- Strategy 4: attribute selector from data-testid, name and type, in
that order, concatenated onto the tag; null when none is present. -/
def attrStrategy (e : GElem) : Option (List String) :=
  let attrs :=
    (match truthyAttr e.dataTestid with
      | some v => ["[data-testid=\"" ++ v ++ "\"]"]
      | none => []) ++
    (match truthyAttr e.nameAttr with
      | some v => ["[name=\"" ++ v ++ "\"]"]
      | none => []) ++
    (match truthyAttr e.typeAttr with
      | some v => ["[type=\"" ++ v ++ "\"]"]
      | none => [])
  if attrs.length > 0 then some [e.tag ++ String.join attrs] else none

/-- DOMRecorder.generateSelectors: run the four strategies in their
source order, keep the non-null results, and push a bare tag selector
only when every strategy returned null. -/
def generateSelectors (e : GElem) : List (List String) :=
  let selectors :=
    [idStrategy e, classStrategy e, pathStrategy e, attrStrategy e].filterMap id
  if selectors.length = 0 then [[e.tag]] else selectors

/-! The playback loop (DOMPlayer.executeNextStep / executeStep). -/

/-- The delay the player schedules between steps (player.ts line 101):
the larger of 500 ms and 1000 divided by the playback speed. -/
def delayMs (playbackSpeed : ℚ) : ℚ := max 500 (1000 / playbackSpeed)

/-- DOMPlayer.executeStep seen through its try/catch: the oracle exec
models whatever the dispatch work does; a thrown error is logged and
swallowed, so every outcome reduces to a success flag. -/
def stepOutcome (exec : Step → Except String Unit) (s : Step) : Bool :=
  match exec s with
  | .ok _ => true
  | .error _ => false

/-- The player state observable at the end of a playback run: the flag,
the cursor, the ordered per-step log of (index, step succeeded), the
scheduled inter-step delays, and whether the completion message was
reached. -/
structure PlayerState where
  isPlaying : Bool
  currentStepIndex : Nat
  log : List (Nat × Bool)
  delays : List ℚ
  completed : Bool
  deriving DecidableEq, Repr

/-- DOMPlayer.executeNextStep (player.ts lines 88 to 105): when stopped
or past the last step, clear the flag and show the completion message;
otherwise execute the step at the cursor through the try/catch of
executeStep, advance the cursor, and schedule the next call after
delayMs. The remaining list is the suffix of steps from the cursor. -/
def executeNextStep (exec : Step → Except String Unit) (speed : ℚ) :
    Bool → List Step → Nat → List (Nat × Bool) → List ℚ → PlayerState
  | false, _, i, log, delays => ⟨false, i, log, delays, true⟩
  | true, [], i, log, delays => ⟨false, i, log, delays, true⟩
  | true, s :: rest, i, log, delays =>
    executeNextStep exec speed true rest (i + 1)
      (log ++ [(i, stepOutcome exec s)]) (delays ++ [delayMs speed])

/-- Outcome of DOMPlayer.playRecording: either the empty-recording error
branch (console.error plus alert, before any step executes), or a
finished playback run. -/
inductive PlayOutcome where
  | emptyError
  | finished (st : PlayerState)
  deriving DecidableEq, Repr

/-- DOMPlayer.playRecording (player.ts lines 26 to 47): take the steps
of the recording (empty when absent), reset the cursor, reject with the
error branch when there are no steps, otherwise run playback. -/
def playRecording (exec : Step → Except String Unit) (speed : ℚ)
    (recording : Recording) : PlayOutcome :=
  let steps := recording.steps.getD []
  if steps.length = 0 then .emptyError
  else .finished (executeNextStep exec speed true steps 0 [] [])

/-- The empty-recording guard of the background service worker
playRecording (service-worker.ts lines 346 to 348): an absent or empty
events list throws a top-level error. -/
def swPlayRecordingCheck (events : Option (List RecEvent)) : Except String Unit :=
  match events with
  | none => .error "Recording has no events"
  | some [] => .error "Recording has no events"
  | some (_ :: _) => .ok ()

/-! Interaction execution (the per-type branches of executeStep). -/

/-- An observable DOM side effect of executing one step: the element
highlight, a synthesized mouse click at client coordinates with a button
code, a value assignment, a plain event dispatch by name, a keyboard
event dispatch, a window scrollTo, the navigate log, or the unsupported
step-type log. -/
inductive Action where
  | highlight (e : Elem)
  | clickDispatch (e : Elem) (clientX clientY : ℚ) (button : Nat)
  | setValue (e : Elem) (v : String)
  | dispatch (e : Elem) (eventName : String)
  | keyDispatch (e : Elem) (eventName : String) (key : String)
  | scrollWindowTo (top : ℚ)
  | navigateLog (url : String)
  | unsupportedLog
  deriving DecidableEq, Repr

/-- JavaScript or-default on an optional number: absent or zero falls
back to the default (both are falsy). -/
def jsOrQ : Option ℚ → ℚ → ℚ
  | some v, d => if v = 0 then d else v
  | none, d => d

/-- JavaScript or-default on a string: the empty string is falsy. -/
def jsOrElse (v d : String) : String := if v = "" then d else v

/-- The button code of the synthesized MouseEvent: 0 for primary, 1 for
middle, 2 otherwise (including an absent button). -/
def buttonCode : Option String → Nat
  | some "primary" => 0
  | some "middle" => 1
  | _ => 2

/-- DOMPlayer.executeStep branch dispatch (player.ts lines 107 to 204):
the ordered list of DOM side effects one step produces, given the live
document, the current window scrollY and the current location href. -/
def executeStepActions (dom : Dom) (scrollY : ℚ) (href : String)
    (step : Step) : List Action :=
  match step.type with
  | .navigate =>
    match step.url with
    | some u => if u ≠ href then [.navigateLog u] else []
    | none => []
  | .click =>
    match findElement dom step.selectors with
    | some e =>
      [.highlight e,
       .clickDispatch e (e.left + jsOrQ step.offsetX (e.width / 2))
         (e.top + jsOrQ step.offsetY (e.height / 2)) (buttonCode step.button)]
    | none => []
  | .change =>
    match findElement dom step.selectors, step.value with
    | some e, some v =>
      [.highlight e, .setValue e (jsOrElse v ""),
       .dispatch e "input", .dispatch e "change"]
    | _, _ => []
  | .keyDown =>
    match findElement dom step.selectors, step.key with
    | some e, some k => [.highlight e, .keyDispatch e "keydown" k]
    | _, _ => []
  | .keyUp =>
    match findElement dom step.selectors, step.key with
    | some e, some k => [.highlight e, .keyDispatch e "keyup" k]
    | _, _ => []
  | .scroll => [.scrollWindowTo (scrollY + 100)]
  | _ => [.unsupportedLog]

/-- The scroll branch of DOMRecorder.createEventData: what the recorder
captures for a scroll event (the window scroll position and the target
selectors) before building the step. -/
structure ScrollCapture where
  scrollX : ℚ
  scrollY : ℚ
  selectors : List (List Selector)
  deriving DecidableEq, Repr

/-- The step the recorder emits for a scroll capture: only the type and
the target selectors; the captured scroll position is not carried into
the step. -/
def scrollStepOf (c : ScrollCapture) : Step :=
  { type := .scroll, selectors := some c.selectors }

/-! Spec-level Element Locator, for comparison with findElement. -/

/-- Modelled from the spec: the ElementDescriptor of section 3 — the
repository implements no descriptor record or confidence scoring; only
the candidates list exists in the code (as the selectors of a step). -/
structure Descriptor where
  candidates : List Selector
  tag : String
  text : String
  boxLeft : ℚ
  boxTop : ℚ
  boxWidth : ℚ
  boxHeight : ℚ
  deriving DecidableEq, Repr

/-- Squared distance between the live center of an element and the
recorded bounding-box center of a descriptor. -/
def distSq (d : Descriptor) (e : Elem) : ℚ :=
  (e.left + e.width / 2 - (d.boxLeft + d.boxWidth / 2)) ^ 2 +
    (e.top + e.height / 2 - (d.boxTop + d.boxHeight / 2)) ^ 2

/-- The element of a non-empty match list whose live center is nearest
to the recorded center (earliest wins ties). -/
def nearestTo (d : Descriptor) (e : Elem) (es : List Elem) : Elem :=
  es.foldl (fun acc x => if distSq d x < distSq d acc then x else acc) e

/-- Modelled from the spec: step 1 of the locate algorithm of section
4.2, absent from the code — try each candidate in order; a unique match
has confidence 1, a multiple match picks the element nearest to the
recorded center with confidence 0.8. -/
def locateByCandidates (dom : Dom) (d : Descriptor) :
    List Selector → Option (Elem × ℚ)
  | [] => none
  | s :: rest =>
    match dom.elems.filter (fun e => s.accepts e) with
    | [] => locateByCandidates dom d rest
    | [e] => some (e, 1)
    | e :: es => some (nearestTo d e es, 8 / 10)

/-- Modelled from the spec: the locate contract of section 4.2, absent
from the code — candidate queries first, then the exact-text fallback at
confidence 0.6, then the proximity fallback at confidence 0.4 within a
50 px center distance, then not-found. -/
def locate (dom : Dom) (d : Descriptor) : Option (Elem × ℚ) :=
  match locateByCandidates dom d d.candidates with
  | some r => some r
  | none =>
    match
      (if d.text ≠ "" then
        dom.elems.filter (fun e => e.tag = d.tag ∧ e.text = d.text)
      else []) with
    | e :: _ => some (e, 6 / 10)
    | [] =>
      match dom.elems.filter (fun e => e.tag = d.tag ∧ distSq d e < 2500) with
      | e :: _ => some (e, 4 / 10)
      | [] => none

/-- Modelled from the spec: the click coordinate of section 4.4 — the
current box origin plus the recorded offset scaled from the recorded box
size to the current box size; absent from the code, which adds the raw
recorded pixel offset. -/
def specScaledClickX (recBoxWidth curLeft curWidth offset : ℚ) : ℚ :=
  curLeft + offset / recBoxWidth * curWidth

/-! Closed-form helpers and concrete inputs used by the theorems. -/

/-- The per-step log a full run appends from cursor position i onward:
one (index, outcome) entry per remaining step, indices in order. -/
def logEntries (exec : Step → Except String Unit) : Nat → List Step → List (Nat × Bool)
  | _, [] => []
  | i, s :: rest => (i, stepOutcome exec s) :: logEntries exec (i + 1) rest

/-- A concrete live element: a button at the origin, 200 wide, 50 tall. -/
def e0 : Elem := ⟨0, "button", "", 0, 0, 200, 50⟩

/-- A concrete document holding only e0. -/
def dom0 : Dom := ⟨[e0]⟩

/-- A concrete selectors argument whose single selector matches e0. -/
def groups0 : List (List Selector) := [[Selector.valid [0]]]

/-- A concrete descriptor whose first candidate matches e0 uniquely; its
recorded bounding box is 100 wide while e0 is currently 200 wide. -/
def d0 : Descriptor := ⟨[Selector.valid [0]], "button", "", 0, 0, 100, 50⟩

/-- A concrete click step on e0 with recorded pixel offsets (10, 5),
captured when the recorded box of d0 was 100 wide. -/
def clickStep0 : Step :=
  { type := .click, selectors := some groups0, offsetX := some 10,
    offsetY := some 5, button := some "primary" }

/-- A concrete change step on e0 carrying the recorded value hello. -/
def changeStep0 : Step :=
  { type := .change, selectors := some groups0, value := some "hello" }

/-- A concrete scroll capture: the recorder saw the window at scrollY
250 with the target selectors of e0. -/
def cap250 : ScrollCapture := ⟨0, 250, groups0⟩

/-- A concrete first step, captured at timestamp 0 (see evA). -/
def stepNavA : Step := { type := .navigate, url := some "https://example.test/a" }

/-- A concrete second step, captured at timestamp 100 (see evB). -/
def stepNavB : Step := { type := .navigate, url := some "https://example.test/b" }

/-- The captured event behind stepNavA: timestamp 0 ms. -/
def evA : RecEvent := ⟨0⟩

/-- The captured event behind stepNavB: timestamp 100 ms. -/
def evB : RecEvent := ⟨100⟩

/-- An execution oracle on which every step dispatch succeeds. -/
def execOk : Step → Except String Unit := fun _ => .ok ()

/-- A concrete recording with no steps list at all. -/
def rEmpty : Recording := { id := "rec-empty" }

/-- A concrete element for the selector generator: a button with no id
and no class, a data-testid, and an ancestor path of a div containing
two buttons, so both the path strategy and the attribute strategy
produce a candidate. -/
def e6 : GElem :=
  { tag := "button", id := "", dataTestid := some "submit",
    chain := [⟨"button", "", 2, 1, true⟩, ⟨"div", "", 1, 1, true⟩] }

/-! Supporting lemmas. -/

/-- Unfolding lemma for the inner selector loop on a cons cell. -/
theorem findElementList_cons (dom : Dom) (s : Selector) (rest : List Selector) :
    findElementList dom (s :: rest) =
      match querySelector dom s with
      | .error _ => findElementList dom rest
      | .ok none => findElementList dom rest
      | .ok (some e) => some e := rfl

/-- Unfolding lemma for the outer selector loop on a cons cell. -/
theorem findElementGroups_cons (dom : Dom) (g : List Selector)
    (gs : List (List Selector)) :
    findElementGroups dom (g :: gs) =
      match findElementList dom g with
      | some e => some e
      | none => findElementGroups dom gs := rfl

/-- find? returns the head of the filtered list. -/
theorem find?_eq_filter_head? {α : Type} (p : α → Bool) (l : List α) :
    l.find? p = (l.filter p).head? := by
  induction l with
  | nil => rfl
  | cons a t ih =>
    by_cases h : p a
    · rw [List.find?_cons_of_pos _ h, List.filter_cons_of_pos h, List.head?_cons]
    · rw [List.find?_cons_of_neg _ h, List.filter_cons_of_neg h, ih]

/-- A selector list whose inner loop misses entirely lets the scan
continue with whatever is appended after it. -/
theorem findElementList_append_none (dom : Dom) {a : List Selector}
    (b : List Selector) (h : findElementList dom a = none) :
    findElementList dom (a ++ b) = findElementList dom b := by
  induction a with
  | nil => rfl
  | cons s t ih =>
    rw [List.cons_append, findElementList_cons]
    rw [findElementList_cons] at h
    cases hq : querySelector dom s with
    | error err => rw [hq] at h; exact ih h
    | ok o =>
      cases o with
      | none => rw [hq] at h; exact ih h
      | some e => rw [hq] at h; exact absurd h (by simp)

/-- A hit in the inner loop short-circuits anything appended after. -/
theorem findElementList_append_some (dom : Dom) {a : List Selector}
    {e : Elem} (b : List Selector) (h : findElementList dom a = some e) :
    findElementList dom (a ++ b) = some e := by
  induction a with
  | nil => simp [findElementList] at h
  | cons s t ih =>
    rw [List.cons_append, findElementList_cons]
    rw [findElementList_cons] at h
    cases hq : querySelector dom s with
    | error err => rw [hq] at h; exact ih h
    | ok o =>
      cases o with
      | none => rw [hq] at h; exact ih h
      | some x => rw [hq] at h; exact h

/-- The nested loops of findElement scan the flattened selector list in
order: the first hit over the concatenation wins. -/
theorem findElementGroups_eq_flatten (dom : Dom) (gs : List (List Selector)) :
    findElementGroups dom gs = findElementList dom gs.flatten := by
  induction gs with
  | nil => rfl
  | cons g t ih =>
    rw [findElementGroups_cons, List.flatten_cons]
    cases hg : findElementList dom g with
    | some e => rw [findElementList_append_some dom t.flatten hg]
    | none => rw [findElementList_append_none dom t.flatten hg, ih]

/-- Dropping the invalid selectors of one selector list does not change
the inner loop: a thrown query is skipped either way. -/
theorem findElementList_filter_valid (dom : Dom) (l : List Selector) :
    findElementList dom (l.filter Selector.isValid) = findElementList dom l := by
  induction l with
  | nil => rfl
  | cons s t ih =>
    cases s with
    | valid ids =>
      rw [show (Selector.valid ids :: t).filter Selector.isValid =
          Selector.valid ids :: t.filter Selector.isValid from rfl]
      rw [findElementList_cons, findElementList_cons]
      cases hq : querySelector dom (Selector.valid ids) with
      | error err => exact ih
      | ok o =>
        cases o with
        | none => exact ih
        | some e => rfl
    | invalid raw =>
      rw [show (Selector.invalid raw :: t).filter Selector.isValid =
          t.filter Selector.isValid from rfl]
      rw [findElementList_cons]
      rw [show querySelector dom (Selector.invalid raw) =
          Except.error ("invalid selector " ++ raw) from rfl]
      exact ih

/-- Dropping invalid selectors groupwise does not change the outer loop. -/
theorem findElementGroups_filter_valid (dom : Dom) (gs : List (List Selector)) :
    findElementGroups dom (gs.map (fun g => g.filter Selector.isValid)) =
      findElementGroups dom gs := by
  induction gs with
  | nil => rfl
  | cons g t ih =>
    rw [List.map_cons, findElementGroups_cons, findElementGroups_cons,
      findElementList_filter_valid]
    cases findElementList dom g with
    | some e => rfl
    | none => exact ih

/-- Unfolding lemma for one iteration of the playback loop. -/
theorem executeNextStep_cons (exec : Step → Except String Unit) (speed : ℚ)
    (s : Step) (rest : List Step) (i : Nat) (log : List (Nat × Bool))
    (delays : List ℚ) :
    executeNextStep exec speed true (s :: rest) i log delays =
      executeNextStep exec speed true rest (i + 1)
        (log ++ [(i, stepOutcome exec s)]) (delays ++ [delayMs speed]) := rfl

/-- Closed form of a playback run: starting at cursor i with the given
suffix, the run ends stopped and completed, with the cursor advanced by
the suffix length, one log entry per step in order, and one scheduled
delay per step. -/
theorem executeNextStep_run (exec : Step → Except String Unit) (speed : ℚ) :
    ∀ (remaining : List Step) (i : Nat) (log : List (Nat × Bool)) (delays : List ℚ),
      executeNextStep exec speed true remaining i log delays =
        ⟨false, i + remaining.length, log ++ logEntries exec i remaining,
          delays ++ List.replicate remaining.length (delayMs speed), true⟩ := by
  intro remaining
  induction remaining with
  | nil => intro i log delays; simp [executeNextStep, logEntries]
  | cons s t ih =>
    intro i log delays
    rw [executeNextStep_cons, ih]
    simp [logEntries, List.replicate_succ, PlayerState.mk.injEq]
    omega

/-- The indices of the log entries are exactly the step indices in
order. -/
theorem logEntries_map_fst (exec : Step → Except String Unit) :
    ∀ (i : Nat) (l : List Step),
      (logEntries exec i l).map Prod.fst = List.range' i l.length := by
  intro i l
  induction l generalizing i with
  | nil => simp [logEntries]
  | cons s t ih => simp [logEntries, List.range'_succ, ih]

/-! Claim theorems. -/

/-- C1: for every descriptor with a non-empty candidates list whose
first candidate selector uniquely matches exactly one live element, the
element-location operation returns that element: the findElement of the
player returns it (candidates are scanned flattened in order and the
first successful direct query wins), and the spec-level locate contract
assigns it confidence 1.0. -/
theorem c1_first_candidate_unique_match (dom : Dom)
    (groups : List (List Selector)) (d : Descriptor) (s : Selector)
    (rest : List Selector) (e : Elem)
    (hflat : groups.flatten = s :: rest)
    (hcand : d.candidates = groups.flatten)
    (huniq : dom.elems.filter (fun x => s.accepts x) = [e]) :
    findElement dom (some groups) = some e ∧ locate dom d = some (e, 1) := by
  obtain ⟨ids, rfl⟩ : ∃ ids, s = Selector.valid ids := by
    cases s with
    | valid ids => exact ⟨ids, rfl⟩
    | invalid raw => exfalso; simp [Selector.accepts] at huniq
  have huniq' : dom.elems.filter ((Selector.valid ids).accepts) = [e] := huniq
  have hfind : dom.elems.find? ((Selector.valid ids).accepts) = some e := by
    rw [find?_eq_filter_head?, huniq', List.head?_cons]
  constructor
  · have hg : ¬ groups.length = 0 := by
      intro h0
      rw [List.length_eq_zero] at h0
      subst h0
      simp at hflat
    rw [show findElement dom (some groups) =
        (if groups.length = 0 then none else findElementGroups dom groups) from rfl]
    rw [if_neg hg, findElementGroups_eq_flatten, hflat, findElementList_cons]
    rw [show querySelector dom (Selector.valid ids) =
        Except.ok (dom.elems.find? ((Selector.valid ids).accepts)) from rfl]
    rw [hfind]
  · have hlc : locateByCandidates dom d d.candidates = some (e, 1) := by
      rw [hcand, hflat]
      rw [show locateByCandidates dom d (Selector.valid ids :: rest) =
          (match dom.elems.filter (fun x => (Selector.valid ids).accepts x) with
           | [] => locateByCandidates dom d rest
           | [e] => some (e, 1)
           | e :: es => some (nearestTo d e es, 8 / 10)) from rfl]
      rw [huniq]
    unfold locate
    rw [hlc]

/-- C1 witness: a document with a single button matched uniquely by the
first candidate selector. -/
theorem c1_first_candidate_unique_match_witness :
    findElement dom0 (some groups0) = some e0 ∧ locate dom0 d0 = some (e0, 1) :=
  c1_first_candidate_unique_match dom0 groups0 d0 (Selector.valid [0]) [] e0
    rfl rfl rfl

/-- C2: replaying any step sequence always continues past failures (the
player has no stop-on-error behaviour): for every execution oracle,
including ones on which every step throws, the per-step error is caught
inside the loop, the cursor advances past every step exactly once in
order, and playback reaches the completed state with the cursor at the
sequence length. -/
theorem c2_playback_completes_regardless_of_errors
    (exec : Step → Except String Unit) (speed : ℚ) (steps : List Step) :
    (executeNextStep exec speed true steps 0 [] []).currentStepIndex = steps.length ∧
    (executeNextStep exec speed true steps 0 [] []).completed = true ∧
    (executeNextStep exec speed true steps 0 [] []).log.map Prod.fst =
      List.range steps.length := by
  rw [executeNextStep_run]
  refine ⟨by simp, rfl, ?_⟩
  simp [logEntries_map_fst, List.range_eq_range']

/-- C3 counterexample: two consecutive steps whose captured events are
100 ms apart, replayed at speedMultiplier 1: the claim requires an
inter-step delay of 100 ms (a compressing cap could only make it
smaller), but the player waits delayMs 1 = 1000 ms, which is neither the
gap nor a compression of it. -/
theorem c3_gap_ignored_counterexample :
    (executeNextStep execOk 1 true [stepNavA, stepNavB] 0 [] []).delays =
      [1000, 1000] ∧
    (evB.timestamp - evA.timestamp) / 1 = 100 ∧
    ¬ ((1000 : ℚ) ≤ (evB.timestamp - evA.timestamp) / 1) := by
  refine ⟨?_, by norm_num [evA, evB], by norm_num [evA, evB]⟩
  rw [executeNextStep_run]
  norm_num [delayMs, List.replicate]

/-- C3 amended: the inter-step delay is the larger of 500 ms and 1000
divided by the playback speed, one identical delay per executed step,
independent of the recorded capture timestamps of the steps. -/
theorem c3_fixed_pacing_delays (exec : Step → Except String Unit)
    (speed : ℚ) (steps : List Step) :
    (executeNextStep exec speed true steps 0 [] []).delays =
      List.replicate steps.length (delayMs speed) := by
  rw [executeNextStep_run]
  simp

/-- C4 counterexample: a click recorded at pixel offset 10 inside a box
that was 100 wide, replayed while the element is 200 wide at the origin:
scaling the relative coordinate would dispatch at x = 20, but the player
dispatches at the absolute recorded offset x = 10. -/
theorem c4_click_scaling_counterexample :
    executeStepActions dom0 0 "" clickStep0 =
      [Action.highlight e0, Action.clickDispatch e0 10 5 0] ∧
    specScaledClickX d0.boxWidth e0.left e0.width 10 = 20 ∧
    ¬ ((10 : ℚ) = 20) := by
  have hf0 : findElement dom0 (some groups0) = some e0 := rfl
  refine ⟨?_, by norm_num [specScaledClickX, d0, e0], by norm_num⟩
  simp [executeStepActions, clickStep0, hf0, jsOrQ, buttonCode, e0]

/-- C4 amended: the synthesized click is dispatched at the element's
current box origin plus the raw recorded pixel offsets (falling back to
the box center when an offset is absent or zero), not scaled to the
current box size. -/
theorem c4_click_uses_absolute_recorded_offset (dom : Dom) (scrollY : ℚ)
    (href : String) (step : Step) (e : Elem) (ox oy : ℚ)
    (ht : step.type = StepType.click)
    (hf : findElement dom step.selectors = some e)
    (hx : step.offsetX = some ox) (hx0 : ¬ ox = 0)
    (hy : step.offsetY = some oy) (hy0 : ¬ oy = 0) :
    executeStepActions dom scrollY href step =
      [Action.highlight e,
       Action.clickDispatch e (e.left + ox) (e.top + oy)
         (buttonCode step.button)] := by
  simp [executeStepActions, ht, hf, hx, hy, jsOrQ, hx0, hy0]

/-- C4 amended witness: the concrete click step dispatches at the
absolute recorded offsets (10, 5) from the origin of e0. -/
theorem c4_click_uses_absolute_recorded_offset_witness :
    executeStepActions dom0 0 "" clickStep0 =
      [Action.highlight e0,
       Action.clickDispatch e0 (e0.left + 10) (e0.top + 5)
         (buttonCode clickStep0.button)] :=
  c4_click_uses_absolute_recorded_offset dom0 0 "" clickStep0 e0 10 5 rfl
    rfl rfl (by norm_num) rfl (by norm_num)

/-- C5 counterexample: a scroll step captured while the window sat at
scrollY 250 and with a target present: the recorder does not carry the
delta into the step, and the player scrolls the window to a fixed
scrollY + 100 = 100, not by the recorded delta and not on the target's
scrollable ancestor. -/
theorem c5_scroll_delta_counterexample :
    executeStepActions dom0 0 "" (scrollStepOf cap250) =
      [Action.scrollWindowTo 100] ∧
    cap250.scrollY = 250 ∧ ¬ ((100 : ℚ) - 0 = 250) := by
  refine ⟨?_, rfl, by norm_num⟩
  norm_num [executeStepActions, scrollStepOf]

/-- C5 amended: executing any scroll step scrolls the window down by a
fixed 100 pixels, ignoring the step's target and any recorded scroll
position. -/
theorem c5_scroll_is_fixed_window_scroll (dom : Dom) (scrollY : ℚ)
    (href : String) (step : Step) (h : step.type = StepType.scroll) :
    executeStepActions dom scrollY href step =
      [Action.scrollWindowTo (scrollY + 100)] := by
  simp [executeStepActions, h]

/-- C5 amended witness: the concrete scroll step scrolls the window from
0 to 100. -/
theorem c5_scroll_is_fixed_window_scroll_witness :
    executeStepActions dom0 0 "" (scrollStepOf cap250) =
      [Action.scrollWindowTo (0 + 100)] :=
  c5_scroll_is_fixed_window_scroll dom0 0 "" (scrollStepOf cap250) rfl

/-- C6 counterexample: a button with no id and no class, a data-testid,
and an ancestor path: the generator emits the structural path candidate
before the attribute candidate, and appends no bare tag candidate, while
the claim puts the stable-attribute candidate second overall (first here,
as no id exists) and the bare tag name last. -/
theorem c6_order_counterexample :
    generateSelectors e6 =
      [["div", "button:nth-child(1)"], ["button[data-testid=\"submit\"]"]] ∧
    ¬ ((generateSelectors e6).head? = some ["button[data-testid=\"submit\"]"]) ∧
    ¬ ((generateSelectors e6).getLast? = some ["button"]) := by
  refine ⟨by decide, by decide, by decide⟩

/-- C6 amended: the generator emits candidates in the order id-based,
then class-based, then structural ancestor path, then an attribute
selector built from data-testid, name and type with the tag name; the
bare tag-name candidate is appended only when every strategy produced
nothing. -/
theorem c6_strategy_order_characterization (e : GElem) :
    generateSelectors e =
      (idStrategy e).toList ++ (classStrategy e).toList ++
        (pathStrategy e).toList ++ (attrStrategy e).toList ∨
    (idStrategy e = none ∧ classStrategy e = none ∧ pathStrategy e = none ∧
      attrStrategy e = none ∧ generateSelectors e = [[e.tag]]) := by
  rcases hi : idStrategy e with _ | a <;>
    rcases hc : classStrategy e with _ | b <;>
      rcases hp : pathStrategy e with _ | c <;>
        rcases ha : attrStrategy e with _ | d <;>
          simp [generateSelectors, hi, hc, hp, ha]

/-- C7: for every element, the generated candidates list is non-empty:
the bare tag fallback is pushed exactly when no strategy produced a
candidate. -/
theorem c7_generate_selectors_never_empty (e : GElem) :
    generateSelectors e ≠ [] := by
  unfold generateSelectors
  by_cases h :
      ([idStrategy e, classStrategy e, pathStrategy e, attrStrategy e].filterMap
        id).length = 0
  · simp [h]
  · simp only [if_neg h]
    intro hc
    exact h (by rw [hc]; rfl)

/-- C8: for every change step with a located element and a recorded
value, execution sets the element's value to the recorded value and then
dispatches an input event and a change event, in that order. -/
theorem c8_change_sets_value_then_input_change (dom : Dom) (scrollY : ℚ)
    (href : String) (step : Step) (e : Elem) (v : String)
    (ht : step.type = StepType.change)
    (hf : findElement dom step.selectors = some e)
    (hv : step.value = some v) :
    executeStepActions dom scrollY href step =
      [Action.highlight e, Action.setValue e v,
       Action.dispatch e "input", Action.dispatch e "change"] := by
  have hj : jsOrElse v "" = v := by
    by_cases h : v = "" <;> simp [jsOrElse, h]
  simp [executeStepActions, ht, hf, hv, hj]

/-- C8 witness: the concrete change step writes hello and dispatches
input then change on e0. -/
theorem c8_change_sets_value_then_input_change_witness :
    executeStepActions dom0 0 "" changeStep0 =
      [Action.highlight e0, Action.setValue e0 "hello",
       Action.dispatch e0 "input", Action.dispatch e0 "change"] :=
  c8_change_sets_value_then_input_change dom0 0 "" changeStep0 e0 "hello" rfl
    rfl rfl

/-- C9: a replay request whose step sequence is empty or absent is
rejected in the error branch of playRecording before any step executes
(the finished branch is the only one that runs steps), and the service
worker likewise throws a top-level error when a recording has no
events. -/
theorem c9_empty_steps_rejected_at_start (exec : Step → Except String Unit)
    (speed : ℚ) (r : Recording)
    (hs : r.steps = none ∨ r.steps = some []) :
    playRecording exec speed r = PlayOutcome.emptyError ∧
    swPlayRecordingCheck none = Except.error "Recording has no events" ∧
    swPlayRecordingCheck (some []) = Except.error "Recording has no events" := by
  refine ⟨?_, rfl, rfl⟩
  rcases hs with h | h <;> simp [playRecording, h]

/-- C9 witness: the concrete recording with no steps list is rejected. -/
theorem c9_empty_steps_rejected_at_start_witness :
    playRecording execOk 1 rEmpty = PlayOutcome.emptyError ∧
    swPlayRecordingCheck none = Except.error "Recording has no events" ∧
    swPlayRecordingCheck (some []) = Except.error "Recording has no events" :=
  c9_empty_steps_rejected_at_start execOk 1 rEmpty (Or.inl rfl)

/-- C10: findElement is total — it returns an element or none for every
selectors argument, absent, empty or containing invalid selector
strings — and an invalid candidate is silently skipped with the
remaining candidates still tried in order: filtering the invalid
selectors out does not change the result. -/
theorem c10_findElement_total_and_skips_invalid (dom : Dom)
    (groups : List (List Selector)) :
    findElement dom none = none ∧
    findElement dom (some []) = none ∧
    findElement dom (some groups) =
      findElement dom (some (groups.map (fun g => g.filter Selector.isValid))) := by
  refine ⟨rfl, rfl, ?_⟩
  rw [show findElement dom (some groups) =
      (if groups.length = 0 then none else findElementGroups dom groups) from rfl]
  rw [show findElement dom (some (groups.map (fun g => g.filter Selector.isValid))) =
      (if (groups.map (fun g => g.filter Selector.isValid)).length = 0 then none
       else findElementGroups dom
         (groups.map (fun g => g.filter Selector.isValid))) from rfl]
  rw [List.length_map]
  by_cases h : groups.length = 0
  · rw [if_pos h, if_pos h]
  · rw [if_neg h, if_neg h, findElementGroups_filter_valid]

end Zordon
